import Mathlib

/-!
Verification of the LGTM chrome-extension background script.

The development embeds `src/background.ts` and `src/config/constants.ts`
shallowly: promise rejection / thrown JS errors become `Except JsError`,
the continuous random source `Math.random()` becomes an explicit rational
draw parameter `d` (the spec requires the random source to be
substitutable), the runtime value of the unchecked cast
`data.ids as string[]` becomes `Option (List (Option String))`
(`none` models the field being absent, i.e. `undefined`; element `none`
models a hole / `undefined` element of the array), and the chrome tab
handle becomes a record with an optional integer id.
-/

namespace Lgtm

/-- Constant `LGTM_BASE_URL` from `src/config/constants.ts`. -/
def LGTM_BASE_URL : String := "https://lgtm.kkhys.me"

/-- Constant `API_PATHS.IDS_JSON` from `src/config/constants.ts`. -/
def API_PATHS_IDS_JSON : String := "/api/ids.json"

/-- Constant `IMAGE_FORMAT.AVIF` from `src/config/constants.ts`. -/
def IMAGE_FORMAT_AVIF : String := ".avif"

/-- A thrown JavaScript `Error`, identified by its message. -/
structure JsError where
  message : String
  deriving DecidableEq

/-- The decoded JSON body `data` of the catalog response.  The source reads
`data.ids as string[]` without validation, so the `ids` field is modelled
as possibly absent (`none`) and, when present, as an array whose elements
may individually be holes (`Option String`). -/
structure JsonData where
  ids : Option (List (Option String))
  deriving DecidableEq

/-- The `fetch` response: its numeric HTTP status and decoded JSON body. -/
structure Response where
  status : Nat
  jsonData : JsonData
  deriving DecidableEq

/-- Property `response.ok` of the fetch API: status in the 2xx range. -/
def Response.ok (r : Response) : Bool :=
  decide (200 ≤ r.status ∧ r.status < 300)

/-- Embedding of `fetchLgtmIds` (`src/background.ts`, lines 3-10).  The
transport outcome of `fetch` is the explicit argument: a rejected promise
(`Except.error`) propagates unchanged; a response with `!response.ok`
raises `Failed to fetch API: status`; otherwise `data.ids` is returned
with no validation (the unchecked cast). -/
def fetchLgtmIds (transport : Except JsError Response) :
    Except JsError (Option (List (Option String))) :=
  match transport with
  | Except.error e => Except.error e
  | Except.ok response =>
    if response.ok = false then
      Except.error { message := "Failed to fetch API: " ++ toString response.status }
    else
      let data := response.jsonData
      Except.ok data.ids

/-- Embedding of `getRandomId` (`src/background.ts`, lines 12-22).  The
draw `d` stands for the value of `Math.random()` (a real in `[0,1)` at
runtime; the model leaves it an arbitrary rational and theorems constrain
it).  The argument is the runtime value flowing out of `fetchLgtmIds`:
`none` (the array is `undefined`) makes `ids.length` throw a `TypeError`;
on an array, a zero length raises `No image IDs found`, otherwise the
element at `Math.floor(d * ids.length)` is read (a negative or
out-of-range index reads `undefined` in JavaScript, modelled by `none`)
and the defensive branch raises `Unexpected error: Failed to get ID`
when that element is `undefined`. -/
def getRandomId (d : ℚ) (ids : Option (List (Option String))) :
    Except JsError String :=
  match ids with
  | none => Except.error { message := "TypeError: Cannot read properties of undefined" }
  | some l =>
    if l.length = 0 then
      Except.error { message := "No image IDs found" }
    else
      let randomIndex : ℤ := ⌊d * (l.length : ℚ)⌋
      let selectedId : Option String :=
        if randomIndex < 0 then none else (l[randomIndex.toNat]?).join
      match selectedId with
      | none => Except.error { message := "Unexpected error: Failed to get ID" }
      | some s => Except.ok s

/-- Embedding of `generateLgtmHtml` (`src/background.ts`, lines 24-28).
Template-literal interpolation is string concatenation. -/
def generateLgtmHtml (id : String) : String :=
  let url := LGTM_BASE_URL ++ "/" ++ id
  let imageUrl := LGTM_BASE_URL ++ "/" ++ id ++ IMAGE_FORMAT_AVIF
  "<a href=\"" ++ url ++ "\"><img src=\"" ++ imageUrl ++ "\" alt=\"LGTM!!\" width=\"400\" /></a>"

/-- Markup shape written from the specification text (section 6, Emitted
markup), to be compared with `generateLgtmHtml`: anchor wrapping image,
link URL origin-slash-id, image URL origin-slash-id-extension, fixed alt
text and width. -/
def specMarkup (id : String) : String :=
  "<a href=\"" ++ "https://lgtm.kkhys.me" ++ "/" ++ id ++ "\"><img src=\"" ++
    "https://lgtm.kkhys.me" ++ "/" ++ id ++ ".avif" ++ "\" alt=\"LGTM!!\" width=\"400\" /></a>"

/-- A chrome tab as used by `copyToClipboard`: its `id` field is optional
in the chrome API (`number | undefined`). -/
structure Tab where
  id : Option ℤ
  deriving DecidableEq

/-- The observable effect of `chrome.scripting.executeScript`: the target
tab and the argument vector handed to the injected clipboard-write
function. -/
structure ScriptCall where
  tabId : ℤ
  args : List String
  deriving DecidableEq

/-- Embedding of `copyToClipboard` (`src/background.ts`, lines 30-42).
The result of `chrome.tabs.query` is the explicit `tabs` argument; the
destructuring `const [tab] = ...` takes its head.  The guard
`!tab || !tab.id` is falsy-based: it raises `No active tab found` when
there is no tab, when `tab.id` is `undefined`, and also when `tab.id`
is the (falsy) number `0`.  Otherwise the injected script runs in that
tab with `[text]` as its argument vector. -/
def copyToClipboard (tabs : List Tab) (text : String) : Except JsError ScriptCall :=
  match tabs.head? with
  | none => Except.error { message := "No active tab found" }
  | some tab =>
    match tab.id with
    | none => Except.error { message := "No active tab found" }
    | some tabId =>
      if tabId = 0 then
        Except.error { message := "No active tab found" }
      else
        Except.ok { tabId := tabId, args := [text] }

/-- The external world of one `handleIconClick` invocation: the transport
outcome of the single `fetch`, the value drawn by `Math.random()`, and
the tab list answered by `chrome.tabs.query`. -/
structure Env where
  transport : Except JsError Response
  draw : ℚ
  tabs : List Tab

/-- The try-block body of `handleIconClick` (`src/background.ts`, lines
46-49): each `await`/call propagates a raised error, short-circuiting the
later stages, so the stages chain in the `Except` error monad. -/
def tryBlock (env : Env) : Except JsError ScriptCall :=
  match fetchLgtmIds env.transport with
  | Except.error e => Except.error e
  | Except.ok ids =>
    match getRandomId env.draw ids with
    | Except.error e => Except.error e
    | Except.ok randomId =>
      let html := generateLgtmHtml randomId
      copyToClipboard env.tabs html

/-- What an invocation of `handleIconClick` leaves behind: the
`console.error` records it emitted and the clipboard-write script call,
when one was reached. -/
structure ClickOutcome where
  errorLogs : List String
  script : Option ScriptCall
  deriving DecidableEq

/-- Embedding of `handleIconClick` (`src/background.ts`, lines 44-53):
the try-block result is caught at the single top-level catch, which logs
`Copy error:` plus the caught error and swallows it. -/
def handleIconClick (env : Env) : ClickOutcome :=
  match tryBlock env with
  | Except.ok call => { errorLogs := [], script := some call }
  | Except.error e => { errorLogs := ["Copy error: " ++ e.message], script := none }

/-! Helper lemmas. -/

/-- For a draw in `[0,1)` and a positive length, the floored scaled index
is in range. -/
theorem floorIndex_bounds (d : ℚ) (n : ℕ) (h0 : 0 ≤ d) (h1 : d < 1) (hn : 0 < n) :
    0 ≤ ⌊d * (n : ℚ)⌋ ∧ (⌊d * (n : ℚ)⌋).toNat < n := by
  have hnn : (0 : ℤ) ≤ ⌊d * (n : ℚ)⌋ :=
    Int.floor_nonneg.mpr (mul_nonneg h0 (Nat.cast_nonneg n))
  have hcast : (0 : ℚ) < (n : ℚ) := by exact_mod_cast hn
  have hmul : d * (n : ℚ) < (n : ℚ) := by
    calc d * (n : ℚ) < 1 * (n : ℚ) := mul_lt_mul_of_pos_right h1 hcast
    _ = (n : ℚ) := one_mul _
  have hlt : ⌊d * (n : ℚ)⌋ < (n : ℤ) := Int.floor_lt.mpr (by exact_mod_cast hmul)
  exact ⟨hnn, (Int.toNat_lt hnn).mpr hlt⟩

/-- Under an in-range draw, `getRandomId` on a present array reduces to a
case split on the element at the floored index. -/
theorem getRandomId_eq_join (d : ℚ) (l : List (Option String))
    (hl : l ≠ []) :
    getRandomId d (some l) =
      match (if (⌊d * (l.length : ℚ)⌋ : ℤ) < 0 then none
             else (l[(⌊d * (l.length : ℚ)⌋).toNat]?).join) with
      | none => Except.error { message := "Unexpected error: Failed to get ID" }
      | some s => Except.ok s := by
  have hlen : l.length ≠ 0 := by
    simpa [List.length_eq_zero] using hl
  simp only [getRandomId]
  rw [if_neg hlen]

/-- On a hole-free list given as mapped strings, an in-range draw makes
`getRandomId` return the element at the floored scaled index. -/
theorem getRandomId_dense_ok (d : ℚ) (l : List String) (h0 : 0 ≤ d) (h1 : d < 1)
    (hl : l ≠ []) :
    ∃ x, l[(⌊d * (l.length : ℚ)⌋).toNat]? = some x ∧
      getRandomId d (some (l.map some)) = Except.ok x := by
  have hn : 0 < l.length := List.length_pos.mpr hl
  obtain ⟨hnn, hidx⟩ := floorIndex_bounds d l.length h0 h1 hn
  have hmapne : l.map some ≠ [] := by simpa using hl
  have e := getRandomId_eq_join d (l.map some) hmapne
  rw [List.length_map] at e
  have hget : l[(⌊d * (l.length : ℚ)⌋).toNat]? = some (l.get ⟨_, hidx⟩) :=
    List.getElem?_eq_getElem hidx
  have hmapget : (l.map some)[(⌊d * (l.length : ℚ)⌋).toNat]? =
      some (some (l.get ⟨_, hidx⟩)) := by
    rw [List.getElem?_map, hget]
    rfl
  refine ⟨l.get ⟨_, hidx⟩, hget, ?_⟩
  rw [e, if_neg (not_lt.mpr hnn), hmapget]
  rfl

/-- C2: for every non-empty sequence of identifiers and every draw in
`[0,1)`, `getRandomId` returns a member of the input sequence. -/
theorem getRandomId_mem (d : ℚ) (l : List String) (h0 : 0 ≤ d) (h1 : d < 1)
    (hl : l ≠ []) :
    ∃ x ∈ l, getRandomId d (some (l.map some)) = Except.ok x := by
  obtain ⟨x, hx, hres⟩ := getRandomId_dense_ok d l h0 h1 hl
  exact ⟨x, List.getElem?_mem hx, hres⟩

/-- Witness for C2 at draw 0 on the one-element sequence. -/
theorem getRandomId_mem_witness :
    ∃ x ∈ (["id1"] : List String),
      getRandomId 0 (some ((["id1"] : List String).map some)) = Except.ok x :=
  getRandomId_mem 0 ["id1"] (le_refl 0) zero_lt_one (by simp)

/-- C4: on the empty sequence `getRandomId` fails with the EmptyInput
error for every draw, and that error is distinct from the
internal-consistency error. -/
theorem getRandomId_empty_input (d : ℚ) :
    getRandomId d (some []) = Except.error { message := "No image IDs found" } ∧
    getRandomId d (some []) ≠
      Except.error { message := "Unexpected error: Failed to get ID" } :=
  ⟨rfl, by simp [getRandomId]⟩

/-- C5: for a draw in `[0,1)` on a non-empty sequence, the selected
element is the one at index equal to the floor of draw times length;
in particular draw one-half on five elements selects the third. -/
theorem getRandomId_floor_index :
    (∀ (d : ℚ) (l : List String), 0 ≤ d → d < 1 → l ≠ [] →
      ∃ x, l[(⌊d * (l.length : ℚ)⌋).toNat]? = some x ∧
        getRandomId d (some (l.map some)) = Except.ok x) ∧
    (⌊(1 / 2 : ℚ) * (5 : ℚ)⌋ = 2) ∧
    getRandomId (1 / 2)
        (some ((["id1", "id2", "id3", "id4", "id5"] : List String).map some)) =
      Except.ok "id3" := by
  refine ⟨fun d l h0 h1 hl => getRandomId_dense_ok d l h0 h1 hl, by norm_num, ?_⟩
  have e := getRandomId_eq_join (1 / 2)
    ((["id1", "id2", "id3", "id4", "id5"] : List String).map some) (by simp)
  have hlen : (((["id1", "id2", "id3", "id4", "id5"] : List String).map some).length : ℚ)
      = (5 : ℚ) := by simp
  rw [hlen] at e
  have h2 : (⌊(1 / 2 : ℚ) * (5 : ℚ)⌋ : ℤ) = 2 := by norm_num
  rw [e, h2]
  simp

/-- Witness for C5 at draw 0 on the one-element sequence. -/
theorem getRandomId_floor_index_witness :
    ∃ x, (["id1"] : List String)[(⌊(0 : ℚ) * (((["id1"] : List String).length : ℕ) : ℚ)⌋).toNat]? =
        some x ∧
      getRandomId 0 (some ((["id1"] : List String).map some)) = Except.ok x :=
  getRandomId_floor_index.1 0 ["id1"] (le_refl 0) zero_lt_one (by simp)

/-- C9: under a draw in `[0,1)` on a non-empty sequence with no
undefined elements, the floored index is in range and the defensive
internal-consistency branch is unreachable. -/
theorem getRandomId_defensive_unreachable (d : ℚ) (l : List (Option String))
    (h0 : 0 ≤ d) (h1 : d < 1) (hl : l ≠ []) (hdense : ∀ x ∈ l, x ≠ none) :
    (⌊d * (l.length : ℚ)⌋).toNat < l.length ∧
    getRandomId d (some l) ≠
      Except.error { message := "Unexpected error: Failed to get ID" } := by
  have hn : 0 < l.length := List.length_pos.mpr hl
  obtain ⟨hnn, hidx⟩ := floorIndex_bounds d l.length h0 h1 hn
  refine ⟨hidx, ?_⟩
  rw [getRandomId_eq_join d l hl, if_neg (not_lt.mpr hnn)]
  have hget : l[(⌊d * (l.length : ℚ)⌋).toNat]? = some (l.get ⟨_, hidx⟩) :=
    List.getElem?_eq_getElem hidx
  rw [hget]
  have hmem : l.get ⟨_, hidx⟩ ∈ l := List.get_mem l _ hidx
  obtain ⟨s, hs⟩ := Option.ne_none_iff_exists.mp (hdense _ hmem)
  rw [← hs]
  simp

/-- Witness for C9 at draw 0 on a one-element hole-free sequence. -/
theorem getRandomId_defensive_unreachable_witness :
    (⌊(0 : ℚ) * ((([some "id1"] : List (Option String)).length : ℕ) : ℚ)⌋).toNat <
      ([some "id1"] : List (Option String)).length ∧
    getRandomId 0 (some [some "id1"]) ≠
      Except.error { message := "Unexpected error: Failed to get ID" } :=
  getRandomId_defensive_unreachable 0 [some "id1"] (le_refl 0) zero_lt_one
    (by simp) (by simp)

/-- C3: the emitted markup matches the specification template with origin
`https://lgtm.kkhys.me` and extension `.avif`, and on `test-id-123` it
equals the specification example byte for byte. -/
theorem generateLgtmHtml_matches_spec :
    (∀ id : String, generateLgtmHtml id = specMarkup id) ∧
    generateLgtmHtml "test-id-123" =
      "<a href=\"https://lgtm.kkhys.me/test-id-123\"><img src=\"https://lgtm.kkhys.me/test-id-123.avif\" alt=\"LGTM!!\" width=\"400\" /></a>" := by
  constructor
  · intro id
    apply String.ext
    simp [generateLgtmHtml, specMarkup, LGTM_BASE_URL, IMAGE_FORMAT_AVIF,
      String.data_append, List.append_assoc]
  · decide

/-- C8: `generateLgtmHtml` is deterministic and injective: equal ids give
equal output and distinct ids give distinct output. -/
theorem generateLgtmHtml_injective :
    (∀ a b : String, a = b → generateLgtmHtml a = generateLgtmHtml b) ∧
    (∀ a b : String, generateLgtmHtml a = generateLgtmHtml b → a = b) := by
  constructor
  · intro a b h
    rw [h]
  · intro a b h
    have hd := congrArg String.data h
    simp only [generateLgtmHtml, LGTM_BASE_URL, IMAGE_FORMAT_AVIF,
      String.data_append, List.append_assoc] at hd
    have hlen : a.data.length = b.data.length := by
      have hl := congrArg List.length hd
      simp only [List.length_append] at hl
      omega
    replace hd := List.append_cancel_left hd
    replace hd := List.append_cancel_left hd
    replace hd := List.append_cancel_left hd
    exact String.ext (List.append_inj hd hlen).1

/-- Witness for C8 applying both directions at the identifier `id1`. -/
theorem generateLgtmHtml_injective_witness :
    generateLgtmHtml "id1" = generateLgtmHtml "id1" ∧ ("id1" : String) = "id1" :=
  ⟨generateLgtmHtml_injective.1 "id1" "id1" rfl,
   generateLgtmHtml_injective.2 "id1" "id1" rfl⟩

/-- C6: `fetchLgtmIds` propagates a transport rejection unchanged, fails
with the FetchFailure message carrying the numeric status on a
non-success status, and returns the unvalidated `ids` field on a
success status. -/
theorem fetchLgtmIds_failure_modes :
    (∀ e : JsError, fetchLgtmIds (Except.error e) = Except.error e) ∧
    (∀ r : Response, r.ok = false →
      fetchLgtmIds (Except.ok r) =
        Except.error { message := "Failed to fetch API: " ++ toString r.status }) ∧
    (∀ r : Response, r.ok = true →
      fetchLgtmIds (Except.ok r) = Except.ok r.jsonData.ids) := by
  refine ⟨fun e => rfl, fun r h => ?_, fun r h => ?_⟩
  · simp [fetchLgtmIds, h]
  · simp [fetchLgtmIds, h]

/-- Witness for C6: a transport error, a 500 response, and a 200
response with a concrete ids field. -/
theorem fetchLgtmIds_failure_modes_witness :
    fetchLgtmIds (Except.error { message := "Network error" }) =
      Except.error { message := "Network error" } ∧
    fetchLgtmIds (Except.ok { status := 500, jsonData := { ids := none } }) =
      Except.error { message := "Failed to fetch API: " ++ toString (500 : ℕ) } ∧
    fetchLgtmIds (Except.ok { status := 200, jsonData := { ids := some [some "id1"] } }) =
      Except.ok (some [some "id1"]) :=
  ⟨fetchLgtmIds_failure_modes.1 { message := "Network error" },
   fetchLgtmIds_failure_modes.2.1 { status := 500, jsonData := { ids := none } } rfl,
   fetchLgtmIds_failure_modes.2.2 { status := 200, jsonData := { ids := some [some "id1"] } } rfl⟩

/-- C10: on a success status `fetchLgtmIds` performs no validation of
the decoded body: when the `ids` field is absent it succeeds returning
the undefined value, neither failing nor returning a sequence. -/
theorem fetchLgtmIds_no_validation (r : Response) (hok : r.ok = true)
    (hids : r.jsonData.ids = none) :
    fetchLgtmIds (Except.ok r) = Except.ok none ∧
    (∀ e : JsError, fetchLgtmIds (Except.ok r) ≠ Except.error e) ∧
    (∀ l : List (Option String), fetchLgtmIds (Except.ok r) ≠ Except.ok (some l)) := by
  have h : fetchLgtmIds (Except.ok r) = Except.ok r.jsonData.ids := by
    simp [fetchLgtmIds, hok]
  rw [h, hids]
  exact ⟨rfl, fun e he => by simp at he, fun l hl => by simp at hl⟩

/-- Witness for C10 on a 200 response whose body has no ids field. -/
theorem fetchLgtmIds_no_validation_witness :
    fetchLgtmIds (Except.ok { status := 200, jsonData := { ids := none } }) =
      Except.ok none ∧
    (∀ e : JsError,
      fetchLgtmIds (Except.ok { status := 200, jsonData := { ids := none } }) ≠
        Except.error e) ∧
    (∀ l : List (Option String),
      fetchLgtmIds (Except.ok { status := 200, jsonData := { ids := none } }) ≠
        Except.ok (some l)) :=
  fetchLgtmIds_no_validation { status := 200, jsonData := { ids := none } } rfl rfl

/-- Counterexample for C7: a located tab whose id is the falsy number 0
has an addressable identity, yet `copyToClipboard` fails with
NoActiveSurface instead of executing the clipboard write. -/
theorem copyToClipboard_zero_id_cex :
    copyToClipboard [{ id := some 0 }] "lgtm-html" =
      Except.error { message := "No active tab found" } ∧
    copyToClipboard [{ id := some 0 }] "lgtm-html" ≠
      Except.ok { tabId := 0, args := ["lgtm-html"] } :=
  ⟨rfl, by simp [copyToClipboard]⟩

/-- C7 (amended): `copyToClipboard` fails with NoActiveSurface when the
query answers no tab, when the first tab has no id, and also when that
id is the falsy number 0; when the first tab has a nonzero id the
clipboard-write script executes in that tab with the text as sole
argument. -/
theorem copyToClipboard_first_tab :
    (∀ text : String,
      copyToClipboard [] text = Except.error { message := "No active tab found" }) ∧
    (∀ (rest : List Tab) (text : String),
      copyToClipboard ({ id := none } :: rest) text =
        Except.error { message := "No active tab found" }) ∧
    (∀ (rest : List Tab) (text : String),
      copyToClipboard ({ id := some 0 } :: rest) text =
        Except.error { message := "No active tab found" }) ∧
    (∀ (i : ℤ) (rest : List Tab) (text : String), i ≠ 0 →
      copyToClipboard ({ id := some i } :: rest) text =
        Except.ok { tabId := i, args := [text] }) := by
  refine ⟨fun t => rfl, fun rest t => rfl, fun rest t => rfl, fun i rest t hi => ?_⟩
  simp [copyToClipboard, hi]

/-- Witness for C7 on a single tab with id 5. -/
theorem copyToClipboard_first_tab_witness :
    copyToClipboard [{ id := some 5 }] "lgtm" =
      Except.ok { tabId := 5, args := ["lgtm"] } :=
  copyToClipboard_first_tab.2.2.2 5 [] "lgtm" (by decide)

/-- C1: every invocation of `handleIconClick` either completes all four
stages with no diagnostic, or swallows the single stage failure and
emits exactly one `Copy error:` diagnostic record, executing no
clipboard write; nothing propagates outward. -/
theorem handleIconClick_catches_all (env : Env) :
    (∃ call : ScriptCall,
      handleIconClick env = { errorLogs := [], script := some call }) ∨
    (∃ e : JsError,
      handleIconClick env =
        { errorLogs := ["Copy error: " ++ e.message], script := none }) := by
  cases h : tryBlock env with
  | ok call => exact Or.inl ⟨call, by simp [handleIconClick, h]⟩
  | error e => exact Or.inr ⟨e, by simp [handleIconClick, h]⟩

end Lgtm
